import Mathlib

/-!
Verification development for the support-ticket / chat-assistant application
(React frontend under `src/`, FastAPI backend described by the specification).
Frontend components (`TicketModal.tsx`, `AdminTicketModal.tsx`, `Chat.tsx`) are
embedded directly from the source; backend behaviour (ticket update validation,
conversation coordination, FAQ cache, escalation sweep) is not part of the
checked-in source tree and is modelled from the specification where needed.
Instants are modelled as milliseconds since the Unix epoch (`Nat`), matching
the JavaScript `Date.now()` representation used by the frontend.
-/

namespace Chatbot

/-- Ticket priority, the union type `low | medium | high | urgent` from
`src/types/index.ts`. -/
inductive Priority where
  | low
  | medium
  | high
  | urgent
deriving DecidableEq

/-- Ticket status. The frontend union in `src/types/index.ts` uses the
lowercase strings `open | in-progress | resolved | escalated`; the
specification and the admin UI use the capitalised spellings
`Open, In-Progress, Resolved, Escalated`. Both name the same four states,
embedded here as one inductive type. -/
inductive Status where
  | Open
  | InProgress
  | Resolved
  | Escalated
deriving DecidableEq

/-- String value of a priority as it appears in the frontend state. -/
def Priority.toStr : Priority → String
  | .low => "low"
  | .medium => "medium"
  | .high => "high"
  | .urgent => "urgent"

/-- The `Ticket` interface of `src/types/index.ts` as built by
`TicketModal.handleSubmit`: `id`, `userId`, `domain`, `summary`, `priority`,
`status`, `createdAt`, `slaTime`. Dates are milliseconds since the epoch. -/
structure Ticket where
  id : String
  userId : String
  domain : String
  summary : String
  priority : Priority
  status : Status
  createdAt : Nat
  slaTime : Nat
deriving DecidableEq

/-- The SLA offset in hours used by `handleSubmit` (`TicketModal.tsx` line 36):
the ternary chain `priority === urgent ? 2 : priority === high ? 4 : 8`.
Note that every priority other than `urgent` and `high` falls through to 8,
including `low`. -/
def handleSubmitSlaHours (p : Priority) : Nat :=
  if p = Priority.urgent then 2 else if p = Priority.high then 4 else 8

/-- Ticket id generation in `handleSubmit` (`TicketModal.tsx` line 27):
the template string `TK-` followed by `Date.now()`. -/
def makeTicketId (now : Nat) : String := "TK-" ++ toString now

/-- The ticket object constructed by `handleSubmit` (`TicketModal.tsx`
lines 26-44). The source reads the clock twice (`new Date()` for `createdAt`
and `Date.now()` inside `slaTime`) within one callback; both reads are
embedded as the single instant `now`. -/
def createTicket (userId domain summary : String) (p : Priority) (now : Nat) :
    Ticket :=
  { id := makeTicketId now
    userId := userId
    domain := domain
    summary := summary
    priority := p
    status := Status.Open
    createdAt := now
    slaTime := now + handleSubmitSlaHours p * 60 * 60 * 1000 }

/-- The display helper `getSLATime` (`TicketModal.tsx` lines 47-55), mapping a
priority string to the human-readable SLA duration shown in the UI. -/
def getSLATime (priority : String) : String :=
  if priority = "urgent" then "2 hours"
  else if priority = "high" then "4 hours"
  else if priority = "medium" then "8 hours"
  else if priority = "low" then "24 hours"
  else "8 hours"

/-- The fixed SLA mapping stated by the specification (section 3):
urgent 2h, high 4h, medium 8h, low 24h. Written from the words of the
specification, for comparison with `handleSubmitSlaHours`. -/
def specSlaHours : Priority → Nat
  | .urgent => 2
  | .high => 4
  | .medium => 8
  | .low => 24

/-- Milliseconds since the epoch at 2024-01-01T00:00:00Z. -/
def epochMs_2024_01_01T00 : Nat := 1704067200000

/-- Milliseconds since the epoch at 2024-01-01T02:00:00Z. -/
def epochMs_2024_01_01T02 : Nat := 1704074400000

/-- The component state of `TicketModal` relevant to submission and the
confirmation screen: `summary`, `priority`, `isSubmitting`, `ticketCreated`. -/
structure ModalState where
  summary : String
  priority : Priority
  isSubmitting : Bool
  ticketCreated : Option String
deriving DecidableEq

/-- The successful-submission callback of `handleSubmit` (`TicketModal.tsx`
lines 26-44): builds the ticket from the current form state, then resets
`summary` to the empty string, `priority` to `medium`, clears `isSubmitting`
and records the created ticket id. Returns the committed component state
paired with the ticket handed to `addTicket`. -/
def handleSubmitSuccess (s : ModalState) (userId domain : String) (now : Nat) :
    ModalState × Ticket :=
  let ticket := createTicket userId domain s.summary s.priority now
  ({ summary := ""
     priority := Priority.medium
     isSubmitting := false
     ticketCreated := some ticket.id }, ticket)

/-- The SLA line rendered on the confirmation screen (`TicketModal.tsx`
line 75): `SLA Time:` followed by `getSLATime(priority)` applied to the
current `priority` state. -/
def successSlaLine (s : ModalState) : String :=
  "SLA Time: " ++ getSLATime (Priority.toStr s.priority)

/-- Claim C1 (refuted by the code): `handleSubmit` gives a ticket of priority
`low` an SLA deadline of `created_at + 8h`, not the `created_at + 24h`
required by the specification mapping, which the same file displays in
`getSLATime` and in the form label `Low (24h SLA)`. -/
theorem c1_low_priority_gets_8h_not_24h :
    (createTicket "u1" "finance" "bill issue" Priority.low
        epochMs_2024_01_01T00).slaTime
      = epochMs_2024_01_01T00 + 8 * 60 * 60 * 1000 ∧
    specSlaHours Priority.low = 24 ∧
    getSLATime "low" = "24 hours" ∧
    (createTicket "u1" "finance" "bill issue" Priority.low
        epochMs_2024_01_01T00).slaTime
      ≠ epochMs_2024_01_01T00 + specSlaHours Priority.low * 60 * 60 * 1000 := by
  refine ⟨rfl, rfl, rfl, ?_⟩
  decide

/-- Claim C3: creating a ticket with priority `urgent` at 2024-01-01T00:00:00Z
yields `slaTime` 2024-01-01T02:00:00Z (two hours later) and status `Open`. -/
theorem c3_urgent_ticket_scenario :
    (createTicket "u1" "finance" "urgent issue" Priority.urgent
        epochMs_2024_01_01T00).slaTime = epochMs_2024_01_01T02 ∧
    (createTicket "u1" "finance" "urgent issue" Priority.urgent
        epochMs_2024_01_01T00).status = Status.Open ∧
    epochMs_2024_01_01T02 = epochMs_2024_01_01T00 + 2 * 60 * 60 * 1000 := by
  refine ⟨?_, rfl, ?_⟩ <;> decide

/-- Claim C9: after a successful submission `handleSubmit` resets the form
priority to `medium` in the same committed state that shows the confirmation
screen, so the rendered SLA line reads `8 hours` for every submitted
priority, while the ticket actually created keeps the submitted priority. -/
theorem c9_confirmation_shows_reset_sla (s : ModalState) (uid dom : String)
    (now : Nat) :
    (handleSubmitSuccess s uid dom now).1.priority = Priority.medium ∧
    successSlaLine (handleSubmitSuccess s uid dom now).1 = "SLA Time: 8 hours" ∧
    (handleSubmitSuccess s uid dom now).2.priority = s.priority :=
  ⟨rfl, rfl, rfl⟩

/-- Modelled from the spec: the backend ticket record (specification
section 3), with the field shape of the `AdminTicket` interface in
`src/types/index.ts` (`ticket_id`, `user_id`, `domain`, `subject`, `status`,
`priority`, `sla_deadline`, `created_at`, `updated_at`). The backend
`main.py` that stores it is not part of the checked-in source tree. -/
structure TicketRec where
  ticketId : String
  userId : String
  domain : String
  subject : String
  priority : Priority
  status : Status
  slaDeadline : Nat
  createdAt : Nat
  updatedAt : Nat
deriving DecidableEq

/-- Modelled from the spec: the allowed status-transition edges of the
TicketLifecycle state machine (specification section 4.2). The validating
backend is not part of the checked-in source tree. -/
def allowedTransition : Status → Status → Bool
  | .Open, .InProgress => true
  | .Open, .Escalated => true
  | .InProgress, .Resolved => true
  | .InProgress, .Escalated => true
  | .Escalated, .InProgress => true
  | .Escalated, .Resolved => true
  | _, _ => false

/-- Error raised by a ticket update whose requested status change is not an
edge of the transition graph (specification sections 4.2 and 7). -/
inductive UpdateError where
  | InvalidTransition
deriving DecidableEq

/-- Modelled from the spec: `TicketLifecycle.update` (specification
section 4.2). Applies only the fields present; a requested status change is
validated against the transition graph and rejected with `InvalidTransition`
otherwise; a priority change never recomputes `sla_deadline`; `updated_at`
is bumped on every successful update. The backend `main.py` implementing the
`PUT` ticket endpoint is not part of the checked-in source tree. -/
def updateTicket (t : TicketRec) (newStatus : Option Status)
    (newPriority : Option Priority) (now : Nat) : Except UpdateError TicketRec :=
  match newStatus with
  | some s =>
      if allowedTransition t.status s then
        Except.ok { t with status := s
                           priority := newPriority.getD t.priority
                           updatedAt := now }
      else Except.error UpdateError.InvalidTransition
  | none =>
      Except.ok { t with priority := newPriority.getD t.priority
                         updatedAt := now }

/-- Modelled from the spec: the stored ticket after an update request — the
new record when the update succeeds, the unchanged record when it fails. -/
def updateResultTicket (t : TicketRec) (newStatus : Option Status)
    (newPriority : Option Priority) (now : Nat) : TicketRec :=
  match updateTicket t newStatus newPriority now with
  | Except.ok t2 => t2
  | Except.error _ => t

/-- Modelled from the spec: one EscalationWatcher sweep step on a single
ticket (specification section 4.3): a ticket whose status is `Open` or
`In-Progress` and whose `sla_deadline` has passed is forced to `Escalated`;
every other ticket is left untouched. The backend watcher is not part of the
checked-in source tree. -/
def sweepTicket (now : Nat) (t : TicketRec) : TicketRec :=
  if (t.status = Status.Open ∨ t.status = Status.InProgress) ∧
      t.slaDeadline < now then
    { t with status := Status.Escalated }
  else t

/-- A concrete ticket used by the witness theorems. -/
def sampleTicket : TicketRec :=
  { ticketId := "T1"
    userId := "u1"
    domain := "finance"
    subject := "billing"
    priority := Priority.medium
    status := Status.Open
    slaDeadline := 100
    createdAt := 0
    updatedAt := 0 }

/-- Claim C2: a requested status transition that is not an edge of the
allowed graph makes the update fail with `InvalidTransition` and leaves the
stored ticket unchanged. -/
theorem c2_invalid_transition_rejected (t : TicketRec) (s : Status)
    (np : Option Priority) (now : Nat)
    (h : allowedTransition t.status s = false) :
    updateTicket t (some s) np now
        = Except.error UpdateError.InvalidTransition ∧
    updateResultTicket t (some s) np now = t := by
  constructor
  · simp [updateTicket, h]
  · simp [updateResultTicket, updateTicket, h]

/-- Witness for C2 at a concrete input: `Open → Resolved` is not an allowed
edge, so the update on `sampleTicket` is rejected and the ticket unchanged. -/
theorem c2_invalid_transition_rejected_witness :
    allowedTransition sampleTicket.status Status.Resolved = false ∧
    (updateTicket sampleTicket (some Status.Resolved) none 5
        = Except.error UpdateError.InvalidTransition ∧
     updateResultTicket sampleTicket (some Status.Resolved) none 5
        = sampleTicket) :=
  ⟨rfl, c2_invalid_transition_rejected sampleTicket Status.Resolved none 5 rfl⟩

/-- Claim C4: every successful update leaves `sla_deadline` (and
`created_at`) unchanged — the deadline computed at creation is never
recomputed, in particular not by a priority-only update. -/
theorem c4_sla_never_recomputed (t : TicketRec) (ns : Option Status)
    (np : Option Priority) (now : Nat) (t2 : TicketRec)
    (h : updateTicket t ns np now = Except.ok t2) :
    t2.slaDeadline = t.slaDeadline ∧ t2.createdAt = t.createdAt := by
  unfold updateTicket at h
  cases ns with
  | some s =>
      by_cases hs : allowedTransition t.status s
      · simp [hs] at h
        subst h
        exact ⟨rfl, rfl⟩
      · simp [hs] at h
  | none =>
      simp at h
      subst h
      exact ⟨rfl, rfl⟩

/-- Witness for C4 at a concrete input: a priority-only update of
`sampleTicket` succeeds and keeps `sla_deadline` and `created_at`. -/
theorem c4_sla_never_recomputed_witness :
    updateTicket sampleTicket none (some Priority.urgent) 7
        = Except.ok { sampleTicket with priority := Priority.urgent
                                        updatedAt := 7 } ∧
    ({ sampleTicket with priority := Priority.urgent
                         updatedAt := 7 : TicketRec }.slaDeadline
        = sampleTicket.slaDeadline ∧
     { sampleTicket with priority := Priority.urgent
                         updatedAt := 7 : TicketRec }.createdAt
        = sampleTicket.createdAt) :=
  ⟨rfl, c4_sla_never_recomputed sampleTicket none (some Priority.urgent) 7 _ rfl⟩

/-- Claim C8: one sweep run escalates an `Open` ticket whose SLA deadline has
passed, and sweeping the resulting ticket again changes nothing. -/
theorem c8_sweep_escalates_and_is_idempotent (t : TicketRec) (now : Nat)
    (h1 : t.status = Status.Open) (h2 : t.slaDeadline < now) :
    (sweepTicket now t).status = Status.Escalated ∧
    sweepTicket now (sweepTicket now t) = sweepTicket now t := by
  have hstep : sweepTicket now t = { t with status := Status.Escalated } := by
    simp [sweepTicket, h1, h2]
  refine ⟨by rw [hstep], ?_⟩
  rw [hstep]
  simp [sweepTicket]

/-- Witness for C8 at a concrete input: `sampleTicket` is `Open` with SLA
deadline 100, swept at instant 200. -/
theorem c8_sweep_escalates_and_is_idempotent_witness :
    (sampleTicket.status = Status.Open ∧ sampleTicket.slaDeadline < 200) ∧
    ((sweepTicket 200 sampleTicket).status = Status.Escalated ∧
     sweepTicket 200 (sweepTicket 200 sampleTicket)
        = sweepTicket 200 sampleTicket) :=
  ⟨⟨rfl, by decide⟩,
   c8_sweep_escalates_and_is_idempotent sampleTicket 200 rfl (by decide)⟩

/-- Modelled from the spec: one stored conversation message (specification
section 3): `role` (`user` or `assistant`), `content`, `timestamp`. -/
structure Message where
  role : String
  content : String
  timestamp : Nat
deriving DecidableEq

/-- Modelled from the spec: a stored conversation (specification section 3):
id, owner, domain, ordered message sequence, creation and update instants. -/
structure Conversation where
  conversationId : String
  userId : String
  domain : String
  messages : List Message
  createdAt : Nat
  updatedAt : Nat
deriving DecidableEq

/-- Modelled from the spec: the persistent conversation store, keyed by
conversation id (specification section 6). -/
abbrev Store := String → Option Conversation

/-- Lookup of a conversation by id in the persistent store. -/
def Store.find (st : Store) (cid : String) : Option Conversation := st cid

/-- Write a conversation back to the persistent store under its id. -/
def Store.put (st : Store) (c : Conversation) : Store :=
  fun cid => if cid = c.conversationId then some c else st cid

/-- The empty persistent store, used by the witness theorems. -/
def emptyStore : Store := fun _ => none

/-- Errors reported by `ask` (specification section 7): unknown or foreign
conversation id, and failure of the external generation backend. -/
inductive AskError where
  | NotFound
  | UpstreamServiceError
deriving DecidableEq

/-- The response body of `POST /ask` as far as the claims need it:
the answer text and the conversation id (specification section 6). -/
structure AskResult where
  answer : String
  conversationId : String
deriving DecidableEq

/-- Modelled from the spec: allocation of a fresh conversation identifier
combining user, domain and a fresh component (specification section 4.1). -/
def allocConversationId (userId domain : String) (fresh : Nat) : String :=
  userId ++ "-" ++ domain ++ "-" ++ toString fresh

/-- Append one message to a conversation, bumping `updated_at`; conversations
are mutated only by append (specification section 3). -/
def appendMessage (c : Conversation) (m : Message) (now : Nat) : Conversation :=
  { c with messages := c.messages ++ [m], updatedAt := now }

/-- Modelled from the spec: the fallback assistant text appended when the
generation backend fails; the specification fixes only that it describes the
failure, not its wording (specification section 4.1). -/
def fallbackText : String :=
  "The assistant is temporarily unavailable. Please try again later."

/-- Modelled from the spec: `start_or_resume` (specification section 4.1).
With a conversation id, the conversation must exist and belong to the caller,
else `NotFound`; without one, a new empty conversation is created under a
freshly allocated id. The backend `main.py` is not part of the checked-in
source tree. -/
def resolveConv (st : Store) (userId domain : String) (cid? : Option String)
    (fresh now : Nat) : Except AskError Conversation :=
  match cid? with
  | some cid =>
      match st.find cid with
      | some c => if c.userId = userId then Except.ok c
                  else Except.error AskError.NotFound
      | none => Except.error AskError.NotFound
  | none =>
      Except.ok { conversationId := allocConversationId userId domain fresh
                  userId := userId
                  domain := domain
                  messages := []
                  createdAt := now
                  updatedAt := now }

/-- Modelled from the spec: `ConversationCoordinator.ask` (specification
sections 4.1 and 7). The user message is appended first; the outcome of the
external generation call is the parameter `gen`. On success the assistant
answer is appended and returned with the conversation id; on failure the
already-appended user message is still persisted, a fallback assistant
message is appended, and `UpstreamServiceError` is reported. Returns the
persistent store after the call together with the reported result. The
backend `main.py` is not part of the checked-in source tree. -/
def ask (st : Store) (userId domain question : String) (cid? : Option String)
    (gen : Except Unit String) (fresh now : Nat) :
    Store × Except AskError AskResult :=
  match resolveConv st userId domain cid? fresh now with
  | Except.error e => (st, Except.error e)
  | Except.ok c =>
      let c1 := appendMessage c ⟨"user", question, now⟩ now
      match gen with
      | Except.ok answer =>
          (Store.put st (appendMessage c1 ⟨"assistant", answer, now⟩ now),
           Except.ok ⟨answer, c.conversationId⟩)
      | Except.error _ =>
          (Store.put st (appendMessage c1 ⟨"assistant", fallbackText, now⟩ now),
           Except.error AskError.UpstreamServiceError)

/-- Reading a conversation straight after writing it returns the written
value. -/
theorem store_put_find (st : Store) (c : Conversation) :
    Store.find (Store.put st c) c.conversationId = some c := by
  simp [Store.find, Store.put]

/-- Claim C5: whenever the resolved conversation exists and the generation
call fails, `ask` reports `UpstreamServiceError`, yet the store now holds the
conversation extended by the user message followed by the fallback assistant
message — the user message is persisted, not lost. -/
theorem c5_upstream_failure_persists_user_message (st : Store)
    (u d q : String) (cid? : Option String) (fresh now : Nat)
    (c : Conversation)
    (h : resolveConv st u d cid? fresh now = Except.ok c) :
    (ask st u d q cid? (Except.error ()) fresh now).2
        = Except.error AskError.UpstreamServiceError ∧
    Store.find (ask st u d q cid? (Except.error ()) fresh now).1
        c.conversationId
      = some { c with
          messages := c.messages ++ [⟨"user", q, now⟩,
                                     ⟨"assistant", fallbackText, now⟩]
          updatedAt := now } := by
  unfold ask
  rw [h]
  refine ⟨rfl, ?_⟩
  have hmsg : appendMessage (appendMessage c ⟨"user", q, now⟩ now)
      ⟨"assistant", fallbackText, now⟩ now
    = { c with
        messages := c.messages ++ [⟨"user", q, now⟩,
                                   ⟨"assistant", fallbackText, now⟩]
        updatedAt := now } := by
    simp [appendMessage]
  show Store.find (Store.put st (appendMessage
      (appendMessage c ⟨"user", q, now⟩ now)
      ⟨"assistant", fallbackText, now⟩ now)) c.conversationId = _
  rw [hmsg]
  exact store_put_find st _

/-- A concrete fresh conversation used by the witness theorems: the empty
conversation allocated for user `u1` in domain `travel`. -/
def sampleNewConv : Conversation :=
  { conversationId := allocConversationId "u1" "travel" 0
    userId := "u1"
    domain := "travel"
    messages := []
    createdAt := 10
    updatedAt := 10 }

/-- Witness for C5 at a concrete input: an `ask` without conversation id on
the empty store, with a failing generation call. -/
theorem c5_upstream_failure_persists_user_message_witness :
    resolveConv emptyStore "u1" "travel" none 0 10 = Except.ok sampleNewConv ∧
    ((ask emptyStore "u1" "travel" "q1" none (Except.error ()) 0 10).2
        = Except.error AskError.UpstreamServiceError ∧
     Store.find (ask emptyStore "u1" "travel" "q1" none
          (Except.error ()) 0 10).1 sampleNewConv.conversationId
        = some { sampleNewConv with
            messages := sampleNewConv.messages
              ++ [⟨"user", "q1", 10⟩, ⟨"assistant", fallbackText, 10⟩]
            updatedAt := 10 }) :=
  ⟨rfl, c5_upstream_failure_persists_user_message emptyStore "u1" "travel"
      "q1" none 0 10 sampleNewConv rfl⟩

/-- Claim C6: an `ask` without a conversation id on a fresh pair allocates a
new conversation id, returns it, and stores the two new messages under it; a
second `ask` supplying that id appends to the same transcript — same id, same
`created_at`, messages extended in order — instead of creating a new
conversation. -/
theorem c6_fresh_conversation_then_append (st : Store) (u d q1 q2 a1 a2 : String)
    (fresh1 fresh2 now1 now2 : Nat)
    (_hfresh : Store.find st (allocConversationId u d fresh1) = none) :
    (ask st u d q1 none (Except.ok a1) fresh1 now1).2
        = Except.ok ⟨a1, allocConversationId u d fresh1⟩ ∧
    Store.find (ask st u d q1 none (Except.ok a1) fresh1 now1).1
        (allocConversationId u d fresh1)
      = some { conversationId := allocConversationId u d fresh1
               userId := u
               domain := d
               messages := [⟨"user", q1, now1⟩, ⟨"assistant", a1, now1⟩]
               createdAt := now1
               updatedAt := now1 } ∧
    (ask (ask st u d q1 none (Except.ok a1) fresh1 now1).1 u d q2
        (some (allocConversationId u d fresh1)) (Except.ok a2) fresh2 now2).2
        = Except.ok ⟨a2, allocConversationId u d fresh1⟩ ∧
    Store.find (ask (ask st u d q1 none (Except.ok a1) fresh1 now1).1 u d q2
        (some (allocConversationId u d fresh1)) (Except.ok a2) fresh2 now2).1
        (allocConversationId u d fresh1)
      = some { conversationId := allocConversationId u d fresh1
               userId := u
               domain := d
               messages := [⟨"user", q1, now1⟩, ⟨"assistant", a1, now1⟩,
                            ⟨"user", q2, now2⟩, ⟨"assistant", a2, now2⟩]
               createdAt := now1
               updatedAt := now2 } := by
  have hfind1 : Store.find (ask st u d q1 none (Except.ok a1) fresh1 now1).1
      (allocConversationId u d fresh1)
      = some { conversationId := allocConversationId u d fresh1
               userId := u
               domain := d
               messages := [⟨"user", q1, now1⟩, ⟨"assistant", a1, now1⟩]
               createdAt := now1
               updatedAt := now1 } := store_put_find st _
  refine ⟨rfl, hfind1, ?_⟩
  set st1 := (ask st u d q1 none (Except.ok a1) fresh1 now1).1 with hst1
  have hres2 : resolveConv st1 u d (some (allocConversationId u d fresh1))
      fresh2 now2
      = Except.ok { conversationId := allocConversationId u d fresh1
                    userId := u
                    domain := d
                    messages := [⟨"user", q1, now1⟩, ⟨"assistant", a1, now1⟩]
                    createdAt := now1
                    updatedAt := now1 } := by
    simp only [resolveConv]
    rw [hfind1]
    simp
  constructor
  · unfold ask
    rw [hres2]
  · unfold ask
    rw [hres2]
    exact store_put_find _ _

/-- Witness for C6 at a concrete input: two `ask` calls on the empty store
for user `u1` in domain `travel`. -/
theorem c6_fresh_conversation_then_append_witness :
    Store.find emptyStore (allocConversationId "u1" "travel" 0) = none ∧
    ((ask emptyStore "u1" "travel" "q1" none (Except.ok "a1") 0 10).2
        = Except.ok ⟨"a1", allocConversationId "u1" "travel" 0⟩ ∧
     Store.find (ask emptyStore "u1" "travel" "q1" none
          (Except.ok "a1") 0 10).1 (allocConversationId "u1" "travel" 0)
       = some { conversationId := allocConversationId "u1" "travel" 0
                userId := "u1"
                domain := "travel"
                messages := [⟨"user", "q1", 10⟩, ⟨"assistant", "a1", 10⟩]
                createdAt := 10
                updatedAt := 10 } ∧
     (ask (ask emptyStore "u1" "travel" "q1" none (Except.ok "a1") 0 10).1
          "u1" "travel" "q2" (some (allocConversationId "u1" "travel" 0))
          (Except.ok "a2") 1 20).2
        = Except.ok ⟨"a2", allocConversationId "u1" "travel" 0⟩ ∧
     Store.find (ask (ask emptyStore "u1" "travel" "q1" none
          (Except.ok "a1") 0 10).1 "u1" "travel" "q2"
          (some (allocConversationId "u1" "travel" 0))
          (Except.ok "a2") 1 20).1 (allocConversationId "u1" "travel" 0)
       = some { conversationId := allocConversationId "u1" "travel" 0
                userId := "u1"
                domain := "travel"
                messages := [⟨"user", "q1", 10⟩, ⟨"assistant", "a1", 10⟩,
                             ⟨"user", "q2", 20⟩, ⟨"assistant", "a2", 20⟩]
                createdAt := 10
                updatedAt := 20 }) :=
  ⟨rfl, c6_fresh_conversation_then_append emptyStore "u1" "travel"
      "q1" "q2" "a1" "a2" 0 1 10 20 rfl⟩

/-- Modelled from the spec: a cached FAQ entry (specification section 3):
domain, ordered suggestion list, expiry instant. -/
structure FaqCacheEntry where
  domain : String
  suggestions : List String
  expiresAt : Nat
deriving DecidableEq

/-- Modelled from the spec: `FaqSuggestionCache.get` for one domain
(specification section 4.4). `cached` is the current cache entry for the
domain, `derivation` the outcome of the best-effort derivation from recent
conversation content, `ttl` the short cache time-to-live. Returns the
suggestion list handed to the caller together with the cache entry after the
call: an unexpired entry is served as is; otherwise a successful derivation
is truncated to at most 6 suggestions and cached; on derivation failure the
previous cached value is returned if any, else the empty list — the caller
never sees a failure. The backend `main.py` is not part of the checked-in
source tree; the frontend requests it with `limit=6` in `loadDynamicFaqs`
(`Chat.tsx` lines 133-150). -/
def faqGet (cached : Option FaqCacheEntry) (derivation : Except Unit (List String))
    (now ttl : Nat) (domain : String) : List String × Option FaqCacheEntry :=
  match cached with
  | some e =>
      if now < e.expiresAt then (e.suggestions, some e)
      else
        match derivation with
        | Except.ok xs =>
            (xs.take 6, some { domain := domain
                               suggestions := xs.take 6
                               expiresAt := now + ttl })
        | Except.error _ => (e.suggestions, some e)
  | none =>
      match derivation with
      | Except.ok xs =>
          (xs.take 6, some { domain := domain
                             suggestions := xs.take 6
                             expiresAt := now + ttl })
      | Except.error _ => ([], none)

/-- Claim C7: `faqGet` returns at most 6 suggestions whenever the cached
entry respects that bound (which every cache write does, so the bound is an
invariant), it preserves that bound on the entry it caches, and on derivation
failure it returns the previously cached suggestions if any, else the empty
list — it never fails the caller. -/
theorem c7_faq_bounded_and_total (cached : Option FaqCacheEntry)
    (derivation : Except Unit (List String)) (now ttl : Nat) (dom : String)
    (hb : ∀ e, cached = some e → e.suggestions.length ≤ 6) :
    (faqGet cached derivation now ttl dom).1.length ≤ 6 ∧
    (∀ e2, (faqGet cached derivation now ttl dom).2 = some e2 →
        e2.suggestions.length ≤ 6) ∧
    (derivation = Except.error () →
        (faqGet cached derivation now ttl dom).1
          = (Option.map FaqCacheEntry.suggestions cached).getD []) := by
  cases cached with
  | none =>
      cases derivation with
      | ok xs =>
          refine ⟨?_, ?_, ?_⟩
          · simp [faqGet]
          · intro e2 he2
            simp [faqGet] at he2
            simp [← he2]
          · intro hderiv
            simp at hderiv
      | error u =>
          refine ⟨by simp [faqGet], ?_, by simp [faqGet]⟩
          intro e2 he2
          simp [faqGet] at he2
  | some e =>
      have he : e.suggestions.length ≤ 6 := hb e rfl
      by_cases hexp : now < e.expiresAt
      · refine ⟨by simpa [faqGet, hexp] using he, ?_, by simp [faqGet, hexp]⟩
        intro e2 he2
        simp [faqGet, hexp] at he2
        simpa [← he2] using he
      · cases derivation with
        | ok xs =>
            refine ⟨?_, ?_, ?_⟩
            · simp [faqGet, hexp]
            · intro e2 he2
              simp [faqGet, hexp] at he2
              simp [← he2]
            · intro hderiv
              simp at hderiv
        | error u =>
            refine ⟨by simpa [faqGet, hexp] using he, ?_,
                by simp [faqGet, hexp]⟩
            intro e2 he2
            simp [faqGet, hexp] at he2
            simpa [← he2] using he

/-- Witness for C7 at a concrete input: an expired cached entry with two
suggestions and a failing derivation. -/
theorem c7_faq_bounded_and_total_witness :
    (∀ e, some { domain := "travel"
                 suggestions := ["faq a", "faq b"]
                 expiresAt := 50 : FaqCacheEntry } = some e →
        e.suggestions.length ≤ 6) ∧
    ((faqGet (some { domain := "travel"
                     suggestions := ["faq a", "faq b"]
                     expiresAt := 50 }) (Except.error ()) 100 30
        "travel").1.length ≤ 6 ∧
     (∀ e2, (faqGet (some { domain := "travel"
                            suggestions := ["faq a", "faq b"]
                            expiresAt := 50 }) (Except.error ()) 100 30
        "travel").2 = some e2 → e2.suggestions.length ≤ 6) ∧
     ((Except.error () : Except Unit (List String)) = Except.error () →
        (faqGet (some { domain := "travel"
                        suggestions := ["faq a", "faq b"]
                        expiresAt := 50 }) (Except.error ()) 100 30
          "travel").1
          = (Option.map FaqCacheEntry.suggestions
              (some { domain := "travel"
                      suggestions := ["faq a", "faq b"]
                      expiresAt := 50 })).getD [])) :=
  ⟨fun e he => by cases he; decide,
   c7_faq_bounded_and_total
      (some { domain := "travel"
              suggestions := ["faq a", "faq b"]
              expiresAt := 50 }) (Except.error ()) 100 30 "travel"
      (fun e he => by cases he; decide)⟩

/-- A message as returned by `GET /api/history/conversationId` and consumed
by `resumeConversation` (`Chat.tsx` lines 108-117): `role`, `content` and a
`timestamp` field that may be absent. -/
structure ApiMessage where
  role : String
  content : String
  timestamp : Option String
deriving DecidableEq

/-- The `sender` values of the frontend `ChatMessage` union in
`src/types/index.ts`: `user` or `bot`. -/
inductive Sender where
  | user
  | bot
deriving DecidableEq

/-- A JavaScript `Date` as constructed in `resumeConversation`: either parsed
from a timestamp string or taken from the clock value `Date.now()`. -/
inductive DateValue where
  | fromString (s : String)
  | fromMillis (n : Nat)
deriving DecidableEq

/-- The frontend `ChatMessage` fields built by `resumeConversation`:
`id`, `content`, `sender`, `timestamp`. -/
structure ChatMsg where
  id : String
  content : String
  sender : Sender
  timestamp : DateValue
deriving DecidableEq

/-- Conversion of one API message in `resumeConversation` (`Chat.tsx`
lines 112-117): id is the conversation id and the index; `sender` is `bot`
exactly when `role` equals `assistant`, everything else becomes `user`; the
timestamp is `new Date(msg.timestamp || Date.now())`, so an absent timestamp
— or an empty string, which is falsy in JavaScript — is replaced by the
current clock value. -/
def convertMessage (conversationId : String) (now : Nat) (index : Nat)
    (msg : ApiMessage) : ChatMsg :=
  { id := conversationId ++ "-" ++ toString index
    content := msg.content
    sender := if msg.role = "assistant" then Sender.bot else Sender.user
    timestamp :=
      match msg.timestamp with
      | some s => if s = "" then DateValue.fromMillis now
                  else DateValue.fromString s
      | none => DateValue.fromMillis now }

/-- The `messagesData.map((msg, index) => ...)` of `resumeConversation`,
written as index-carrying recursion. -/
def resumeConvertAux (conversationId : String) (now : Nat) (index : Nat) :
    List ApiMessage → List ChatMsg
  | [] => []
  | m :: ms =>
      convertMessage conversationId now index m
        :: resumeConvertAux conversationId now (index + 1) ms

/-- The full message-list conversion performed by `resumeConversation`
(`Chat.tsx` lines 112-117), starting at index 0. -/
def resumeConvert (conversationId : String) (now : Nat)
    (msgs : List ApiMessage) : List ChatMsg :=
  resumeConvertAux conversationId now 0 msgs

/-- Element `j` of the converted list is the conversion of element `j` of the
input, at the shifted index. -/
theorem resumeConvertAux_getElem (cid : String) (now : Nat)
    (msgs : List ApiMessage) (i j : Nat) :
    (resumeConvertAux cid now i msgs)[j]?
      = (msgs[j]?).map (convertMessage cid now (i + j)) := by
  induction msgs generalizing i j with
  | nil => simp [resumeConvertAux]
  | cons m ms ih =>
      cases j with
      | zero => simp [resumeConvertAux]
      | succ j =>
          have := ih (i + 1) j
          simpa [resumeConvertAux, Nat.add_assoc, Nat.add_comm 1 j] using this

/-- Claim C10: `resumeConversation` renders the message at position `i` with
sender `bot` exactly when its role equals `assistant`; every other role value
is rendered as sender `user`; and a missing timestamp is replaced by the
current clock value. -/
theorem c10_resume_role_and_timestamp (cid : String) (now : Nat)
    (msgs : List ApiMessage) (i : Nat) (m : ApiMessage)
    (h : msgs[i]? = some m) :
    (resumeConvert cid now msgs)[i]? = some (convertMessage cid now i m) ∧
    ((convertMessage cid now i m).sender = Sender.bot ↔ m.role = "assistant") ∧
    (m.role ≠ "assistant" →
        (convertMessage cid now i m).sender = Sender.user) ∧
    (m.timestamp = none →
        (convertMessage cid now i m).timestamp = DateValue.fromMillis now) := by
  refine ⟨?_, ?_, ?_, ?_⟩
  · rw [resumeConvert, resumeConvertAux_getElem, h]
    simp
  · by_cases hr : m.role = "assistant" <;> simp [convertMessage, hr]
  · intro hr
    simp [convertMessage, hr]
  · intro ht
    simp [convertMessage, ht]

/-- Witness for C10 at a concrete input: a two-message history whose second
message has an unknown role and no timestamp, resumed at instant 42. -/
theorem c10_resume_role_and_timestamp_witness :
    ([⟨"assistant", "hello", some "2024-01-01"⟩,
      ⟨"system", "note", none⟩] : List ApiMessage)[1]?
        = some ⟨"system", "note", none⟩ ∧
    ((resumeConvert "conv1" 42
        [⟨"assistant", "hello", some "2024-01-01"⟩,
         ⟨"system", "note", none⟩])[1]?
        = some (convertMessage "conv1" 42 1 ⟨"system", "note", none⟩) ∧
     ((convertMessage "conv1" 42 1 ⟨"system", "note", none⟩).sender
          = Sender.bot ↔ (ApiMessage.mk "system" "note" none).role
          = "assistant") ∧
     ((ApiMessage.mk "system" "note" none).role ≠ "assistant" →
        (convertMessage "conv1" 42 1 ⟨"system", "note", none⟩).sender
          = Sender.user) ∧
     ((ApiMessage.mk "system" "note" none).timestamp = none →
        (convertMessage "conv1" 42 1 ⟨"system", "note", none⟩).timestamp
          = DateValue.fromMillis 42)) :=
  ⟨rfl, c10_resume_role_and_timestamp "conv1" 42
      [⟨"assistant", "hello", some "2024-01-01"⟩, ⟨"system", "note", none⟩]
      1 ⟨"system", "note", none⟩ rfl⟩

end Chatbot
